import Mathlib

/-!
Verification of the single-value-chart resource of the
`terraform-provider-signalfx` repository
(`src/signalfx/resource_signalfx_single_value_chart.go`).

The payload builders `getPayloadSingleValueChart` and
`getSingleValueChartOptions` are embedded as pure Lean functions over an
explicit record of the Terraform field values.  A Go `map[string]interface{}`
is modelled as an association list kept sorted by key (a Go map is an
unordered finite map, and `json.Marshal` emits its keys in sorted order, so
the sorted association list is its canonical representation).  The CRUD
handlers `singlevaluechartCreate` / `singlevaluechartUpdate` are embedded
with their outside-of-src collaborators (`buildURL`, `resourceCreate`,
`resourceUpdate`, `buildAppURL`) abstracted by their outcomes.
-/

set_option autoImplicit false

namespace SignalFx

/-- A single-quote character, kept out of string literals. -/
def sq : String := (Char.ofNat 39).toString

/-- JSON values, as produced by Go `encoding/json` marshalling of
`map[string]interface{}` payloads: strings, integers, booleans, objects
and arrays.  Objects carry their fields as a key-sorted association list. -/
inductive JValue where
  | str : String → JValue
  | int : Int → JValue
  | bool : Bool → JValue
  | obj : List (String × JValue) → JValue
  | arr : List JValue → JValue
deriving Repr

/-- Lexicographic order on keys, character-wise — the order in which
`json.Marshal` sorts the keys of a map (byte order; the payload keys are all
ASCII, where character order and byte order agree). -/
def keyLt (a b : String) : Bool := decide (a.data < b.data)

/-- Insert a key/value pair into a key-sorted association list, replacing any
existing binding of the key.  This models assignment `m[k] = v` on a Go map
under the canonical sorted representation. -/
def insertKV (k : String) (v : JValue) : List (String × JValue) → List (String × JValue)
  | [] => [(k, v)]
  | (k2, v2) :: rest =>
    if keyLt k k2 then (k, v) :: (k2, v2) :: rest
    else if k = k2 then (k, v) :: rest
    else (k2, v2) :: insertKV k v rest

/-- Key lookup in an association list; models `m[k]` / key-presence on a Go map. -/
def lookupKey (k : String) : List (String × JValue) → Option JValue
  | [] => none
  | (k2, v) :: rest => if k = k2 then some v else lookupKey k rest

/-- One hexadecimal digit, lower case, as emitted by Go `encoding/json`. -/
def hexDigit (n : Nat) : Char :=
  if n < 10 then Char.ofNat (48 + n) else Char.ofNat (87 + n)

/-- Escaping of a character inside a JSON string, following Go
`encoding/json` defaults (HTML-escaping of `<`, `>`, `&` included). -/
def escapeChar (c : Char) : String :=
  if c = '"' then "\\\""
  else if c = '\\' then "\\\\"
  else if c = '\n' then "\\n"
  else if c = '\r' then "\\r"
  else if c = '\t' then "\\t"
  else if c = '<' then "\\u003c"
  else if c = '>' then "\\u003e"
  else if c = '&' then "\\u0026"
  else if c.toNat < 32 then
    "\\u00" ++ (hexDigit (c.toNat / 16)).toString ++ (hexDigit (c.toNat % 16)).toString
  else c.toString

/-- JSON string-body escaping, character by character. -/
def escapeString (s : String) : String :=
  String.join (s.data.map escapeChar)

mutual

/-- Serialization of a `JValue` to its JSON text, as `json.Marshal` emits it:
object keys in sorted order (already guaranteed by the representation),
no whitespace. -/
def serialize : JValue → String
  | JValue.str s => "\"" ++ escapeString s ++ "\""
  | JValue.int n => toString n
  | JValue.bool b => if b then "true" else "false"
  | JValue.obj fields => "\x7b" ++ serializeFields fields ++ "\x7d"
  | JValue.arr elems => "[" ++ serializeElems elems ++ "]"
termination_by structural v => v

/-- Serialization of the fields of a JSON object, comma separated. -/
def serializeFields : List (String × JValue) → String
  | [] => ""
  | [(k, v)] => "\"" ++ escapeString k ++ "\":" ++ serialize v
  | (k, v) :: rest => "\"" ++ escapeString k ++ "\":" ++ serialize v ++ "," ++ serializeFields rest
termination_by structural l => l

/-- Serialization of the elements of a JSON array, comma separated. -/
def serializeElems : List JValue → String
  | [] => ""
  | [v] => serialize v
  | v :: rest => serialize v ++ "," ++ serializeElems rest
termination_by structural l => l

end

/-- One `color_scale` block instance: a required color plus four optional
threshold bounds (`gt`, `gte`, `lt`, `lte`).  The bounds are floating-point
in the Terraform schema; they are modelled with integer numerals because no
verified property inspects their values, only presence and count. -/
structure ColorScaleEntry where
  color : String
  gt : Option Int
  gte : Option Int
  lt : Option Int
  lte : Option Int
deriving Repr, DecidableEq

/-- One `viz_options` block instance: a required publish label plus four
optional styling fields. -/
structure VizOptionEntry where
  label : String
  color : Option String
  value_unit : Option String
  value_pre : Option String
  value_suffix : Option String
deriving Repr, DecidableEq

/-- The local field values of one single-value-chart resource instance, as
declared by `singleValueChartResource`'s schema.  Required string fields are
plain `String`; optional fields are `Option`-valued, `none` meaning the user
never set the field.  (`unit_pre` and `value_pre` stand for the schema's
`unit_prefix` / `value_prefix` fields.) -/
structure ResourceData where
  name : String
  program_text : String
  description : Option String
  unit_pre : Option String
  color_by : Option String
  max_delay : Option Int
  refresh_interval : Option Int
  max_precision : Option Int
  is_timestamp_hidden : Option Bool
  show_spark_line : Option Bool
  secondary_visualization : Option String
  color_scale : List ColorScaleEntry
  viz_options : List VizOptionEntry
deriving Repr, DecidableEq

/-- Terraform's `d.GetOk` on a string field: the `ok` flag is false both when
the field was never set and when it holds the string zero value `""`. -/
def getOkString : Option String → Option String
  | some s => if s = "" then none else some s
  | none => none

/-- Terraform's `d.GetOk` on an integer field: the `ok` flag is false both
when the field was never set and when it holds the integer zero value `0`. -/
def getOkInt : Option Int → Option Int
  | some v => if v = 0 then none else some v
  | none => none

/-- Modelled from the spec: the shared helper `getColorScaleOptions` is not
under `src/`; per spec sections 3 and 4.2 (step 3) every `color_scale` block
instance maps to its own payload map — the required `color` plus the four
optional threshold bounds, each omitted when unset — and the maps are
collected into a list. -/
def getColorScaleOptions (d : ResourceData) : List JValue :=
  d.color_scale.map (fun e =>
    let m := insertKV "color" (JValue.str e.color) []
    let m := match e.gt with
      | some v => insertKV "gt" (JValue.int v) m
      | none => m
    let m := match e.gte with
      | some v => insertKV "gte" (JValue.int v) m
      | none => m
    let m := match e.lt with
      | some v => insertKV "lt" (JValue.int v) m
      | none => m
    let m := match e.lte with
      | some v => insertKV "lte" (JValue.int v) m
      | none => m
    JValue.obj m)

/-- Modelled from the spec: the shared helper `getPerSignalVizOptions` is not
under `src/`; per spec sections 3 and 4.2 (step 3) every `viz_options` block
instance maps to its own payload map — the required `label` plus the optional
styling fields under their camelCase wire keys, each omitted when unset — and
the maps are collected into a list. -/
def getPerSignalVizOptions (d : ResourceData) : List JValue :=
  d.viz_options.map (fun e =>
    let m := insertKV "label" (JValue.str e.label) []
    let m := match getOkString e.color with
      | some v => insertKV "color" (JValue.str v) m
      | none => m
    let m := match getOkString e.value_unit with
      | some v => insertKV "valueUnit" (JValue.str v) m
      | none => m
    let m := match getOkString e.value_pre with
      | some v => insertKV "valuePrefix" (JValue.str v) m
      | none => m
    let m := match getOkString e.value_suffix with
      | some v => insertKV "valueSuffix" (JValue.str v) m
      | none => m
    JValue.obj m)

/-- The `unit_prefix` statement of `getSingleValueChartOptions`:
`if val, ok := d.GetOk("unit_prefix"); ok { viz["unitPrefix"] = val.(string) }`. -/
def addUnitPre (d : ResourceData) (viz : List (String × JValue)) : List (String × JValue) :=
  match getOkString d.unit_pre with
  | some val => insertKV "unitPrefix" (JValue.str val) viz
  | none => viz

/-- The `color_by` statement of `getSingleValueChartOptions`: on `"Scale"`,
attach `colorBy` and `colorScale2` only when `getColorScaleOptions` is
non-empty; on any other fetched value, attach `colorBy` as a flat field. -/
def addColorBy (d : ResourceData) (viz : List (String × JValue)) : List (String × JValue) :=
  match getOkString d.color_by with
  | some val =>
    if val = "Scale" then
      let colorScaleOptions := getColorScaleOptions d
      if 0 < colorScaleOptions.length then
        insertKV "colorScale2" (JValue.arr colorScaleOptions)
          (insertKV "colorBy" (JValue.str "Scale") viz)
      else viz
    else insertKV "colorBy" (JValue.str val) viz
  | none => viz

/-- The `max_delay` statement of `getSingleValueChartOptions`: when fetched,
`programOptions["maxDelay"] = val.(int) * 1000` and the `programOptions` map
is attached. -/
def addProgramOptions (d : ResourceData) (viz : List (String × JValue)) : List (String × JValue) :=
  match getOkInt d.max_delay with
  | some val =>
    insertKV "programOptions" (JValue.obj (insertKV "maxDelay" (JValue.int (val * 1000)) [])) viz
  | none => viz

/-- The `refresh_interval` statement of `getSingleValueChartOptions`:
`viz["refreshInterval"] = refreshInterval.(int) * 1000` when fetched. -/
def addRefreshInterval (d : ResourceData) (viz : List (String × JValue)) : List (String × JValue) :=
  match getOkInt d.refresh_interval with
  | some val => insertKV "refreshInterval" (JValue.int (val * 1000)) viz
  | none => viz

/-- The `max_precision` statement of `getSingleValueChartOptions`:
`viz["maximumPrecision"] = maxPrecision.(int)` when fetched, no conversion. -/
def addMaxPrecision (d : ResourceData) (viz : List (String × JValue)) : List (String × JValue) :=
  match getOkInt d.max_precision with
  | some val => insertKV "maximumPrecision" (JValue.int val) viz
  | none => viz

/-- The `secondary_visualization` statement of `getSingleValueChartOptions`,
including the (redundant) non-empty re-check the Go code performs on the
fetched value. -/
def addSecondaryVisualization (d : ResourceData) (viz : List (String × JValue)) :
    List (String × JValue) :=
  match getOkString d.secondary_visualization with
  | some val => if val ≠ "" then insertKV "secondaryVisualization" (JValue.str val) viz else viz
  | none => viz

/-- Embedding of `getSingleValueChartOptions`: the statement sequence of the
Go function, applied in source order to the map that starts with
`viz["type"] = "SingleValue"` and ends with the two unconditional boolean
assignments `timestampHidden` / `showSparkLine` (their `d.Get` yields the
schema default `false` when the field was never set). -/
def getSingleValueChartOptions (d : ResourceData) : List (String × JValue) :=
  insertKV "showSparkLine" (JValue.bool (Option.getD d.show_spark_line false))
    (insertKV "timestampHidden" (JValue.bool (Option.getD d.is_timestamp_hidden false))
      (addSecondaryVisualization d
        (addMaxPrecision d
          (addRefreshInterval d
            (addProgramOptions d
              (addColorBy d
                (addUnitPre d
                  (insertKV "type" (JValue.str "SingleValue") []))))))))

/-- The options map as it ends up inside the payload: the result of
`getSingleValueChartOptions` with `publishLabelOptions` attached when
`getPerSignalVizOptions` returned at least one entry
(the `if len(vizOptions) > 0` guard in `getPayloadSingleValueChart`). -/
def chartOptionsInPayload (d : ResourceData) : List (String × JValue) :=
  let viz := getSingleValueChartOptions d
  if 0 < (getPerSignalVizOptions d).length then
    insertKV "publishLabelOptions" (JValue.arr (getPerSignalVizOptions d)) viz
  else viz

/-- The top-level payload map of `getPayloadSingleValueChart`: `name`,
`description` and `programText` from unconditional `d.Get` calls (so
`description` carries `""` when unset), plus `options` whenever the options
map is non-empty (`if len(viz) > 0`). -/
def payloadFields (d : ResourceData) : List (String × JValue) :=
  let payload :=
    insertKV "name" (JValue.str d.name)
      (insertKV "description" (JValue.str (Option.getD d.description ""))
        (insertKV "programText" (JValue.str d.program_text) []))
  let viz := chartOptionsInPayload d
  if 0 < viz.length then insertKV "options" (JValue.obj viz) payload else payload

/-- Embedding of `getPayloadSingleValueChart`: the payload map marshalled to
JSON bytes.  `json.Marshal` cannot fail on these maps (every value is a
string, int, bool, list or map of such), so the Go function's error result is
always nil and the embedding returns the bytes directly. -/
def getPayloadSingleValueChart (d : ResourceData) : String :=
  serialize (JValue.obj (payloadFields d))

/-! ### Generic lemmas about the sorted-association-list map model -/

theorem lookupKey_insertKV (k k2 : String) (v : JValue) (l : List (String × JValue)) :
    lookupKey k (insertKV k2 v l) = if k = k2 then some v else lookupKey k l := by
  induction l with
  | nil => simp [insertKV, lookupKey]
  | cons p rest ih =>
    obtain ⟨k3, v3⟩ := p
    cases h1 : keyLt k2 k3
    · by_cases h2 : k2 = k3
      · subst h2
        by_cases h3 : k = k2 <;> simp [insertKV, h1, h3, lookupKey]
      · by_cases h3 : k = k3
        · subst h3
          simp [insertKV, h1, h2, lookupKey, Ne.symm h2]
        · simp [insertKV, h1, h2, lookupKey, h3, ih]
    · simp [insertKV, h1, lookupKey]

theorem insertKV_length_pos (k : String) (v : JValue) (l : List (String × JValue)) :
    0 < (insertKV k v l).length := by
  cases l with
  | nil => simp [insertKV]
  | cons p rest =>
    obtain ⟨k2, v2⟩ := p
    cases h1 : keyLt k k2
    · by_cases h2 : k = k2
      · subst h2
        simp [insertKV, h1]
      · simp [insertKV, h1, h2]
    · simp [insertKV, h1]

/-! ### Skip lemmas: each statement of `getSingleValueChartOptions` touches
only its own keys -/

theorem lookupKey_addUnitPre_ne (k : String) (d : ResourceData) (viz : List (String × JValue))
    (h : ¬ k = "unitPrefix") : lookupKey k (addUnitPre d viz) = lookupKey k viz := by
  cases hu : getOkString d.unit_pre <;> simp [addUnitPre, hu, lookupKey_insertKV, h]

theorem lookupKey_addColorBy_ne (k : String) (d : ResourceData) (viz : List (String × JValue))
    (h1 : ¬ k = "colorBy") (h2 : ¬ k = "colorScale2") :
    lookupKey k (addColorBy d viz) = lookupKey k viz := by
  cases hc : getOkString d.color_by with
  | none => simp [addColorBy, hc]
  | some val =>
    by_cases hs : val = "Scale"
    · by_cases hl : 0 < (getColorScaleOptions d).length <;>
        simp [addColorBy, hc, hs, hl, lookupKey_insertKV, h1, h2]
    · simp [addColorBy, hc, hs, lookupKey_insertKV, h1]

theorem lookupKey_addProgramOptions_ne (k : String) (d : ResourceData)
    (viz : List (String × JValue)) (h : ¬ k = "programOptions") :
    lookupKey k (addProgramOptions d viz) = lookupKey k viz := by
  cases hm : getOkInt d.max_delay <;> simp [addProgramOptions, hm, lookupKey_insertKV, h]

theorem lookupKey_addRefreshInterval_ne (k : String) (d : ResourceData)
    (viz : List (String × JValue)) (h : ¬ k = "refreshInterval") :
    lookupKey k (addRefreshInterval d viz) = lookupKey k viz := by
  cases hr : getOkInt d.refresh_interval <;> simp [addRefreshInterval, hr, lookupKey_insertKV, h]

theorem lookupKey_addMaxPrecision_ne (k : String) (d : ResourceData)
    (viz : List (String × JValue)) (h : ¬ k = "maximumPrecision") :
    lookupKey k (addMaxPrecision d viz) = lookupKey k viz := by
  cases hp : getOkInt d.max_precision <;> simp [addMaxPrecision, hp, lookupKey_insertKV, h]

theorem lookupKey_addSecondaryVisualization_ne (k : String) (d : ResourceData)
    (viz : List (String × JValue)) (h : ¬ k = "secondaryVisualization") :
    lookupKey k (addSecondaryVisualization d viz) = lookupKey k viz := by
  cases hs : getOkString d.secondary_visualization with
  | none => simp [addSecondaryVisualization, hs]
  | some val =>
    by_cases he : val = "" <;> simp [addSecondaryVisualization, hs, he, lookupKey_insertKV, h]

theorem lookupKey_chartOptionsInPayload_ne (k : String) (d : ResourceData)
    (h : ¬ k = "publishLabelOptions") :
    lookupKey k (chartOptionsInPayload d) = lookupKey k (getSingleValueChartOptions d) := by
  by_cases hl : 0 < (getPerSignalVizOptions d).length <;>
    simp [chartOptionsInPayload, hl, lookupKey_insertKV, h]

/-! ### Characterization of every key of the options map -/

theorem lookup_type (d : ResourceData) :
    lookupKey "type" (chartOptionsInPayload d) = some (JValue.str "SingleValue") := by
  rw [lookupKey_chartOptionsInPayload_ne _ _ (by decide)]
  unfold getSingleValueChartOptions
  rw [lookupKey_insertKV, if_neg (by decide), lookupKey_insertKV, if_neg (by decide),
    lookupKey_addSecondaryVisualization_ne _ _ _ (by decide),
    lookupKey_addMaxPrecision_ne _ _ _ (by decide),
    lookupKey_addRefreshInterval_ne _ _ _ (by decide),
    lookupKey_addProgramOptions_ne _ _ _ (by decide),
    lookupKey_addColorBy_ne _ _ _ (by decide) (by decide),
    lookupKey_addUnitPre_ne _ _ _ (by decide),
    lookupKey_insertKV, if_pos rfl]

theorem lookup_showSparkLine (d : ResourceData) :
    lookupKey "showSparkLine" (chartOptionsInPayload d) =
      some (JValue.bool (Option.getD d.show_spark_line false)) := by
  rw [lookupKey_chartOptionsInPayload_ne _ _ (by decide)]
  unfold getSingleValueChartOptions
  rw [lookupKey_insertKV, if_pos rfl]

theorem lookup_timestampHidden (d : ResourceData) :
    lookupKey "timestampHidden" (chartOptionsInPayload d) =
      some (JValue.bool (Option.getD d.is_timestamp_hidden false)) := by
  rw [lookupKey_chartOptionsInPayload_ne _ _ (by decide)]
  unfold getSingleValueChartOptions
  rw [lookupKey_insertKV, if_neg (by decide), lookupKey_insertKV, if_pos rfl]

theorem lookup_unitPre (d : ResourceData) :
    lookupKey "unitPrefix" (chartOptionsInPayload d) =
      Option.map JValue.str (getOkString d.unit_pre) := by
  rw [lookupKey_chartOptionsInPayload_ne _ _ (by decide)]
  unfold getSingleValueChartOptions
  rw [lookupKey_insertKV, if_neg (by decide), lookupKey_insertKV, if_neg (by decide),
    lookupKey_addSecondaryVisualization_ne _ _ _ (by decide),
    lookupKey_addMaxPrecision_ne _ _ _ (by decide),
    lookupKey_addRefreshInterval_ne _ _ _ (by decide),
    lookupKey_addProgramOptions_ne _ _ _ (by decide),
    lookupKey_addColorBy_ne _ _ _ (by decide) (by decide)]
  cases hu : getOkString d.unit_pre <;>
    simp [addUnitPre, hu, lookupKey_insertKV, lookupKey]

theorem lookup_programOptions (d : ResourceData) :
    lookupKey "programOptions" (chartOptionsInPayload d) =
      Option.map (fun v => JValue.obj [("maxDelay", JValue.int (v * 1000))])
        (getOkInt d.max_delay) := by
  rw [lookupKey_chartOptionsInPayload_ne _ _ (by decide)]
  unfold getSingleValueChartOptions
  rw [lookupKey_insertKV, if_neg (by decide), lookupKey_insertKV, if_neg (by decide),
    lookupKey_addSecondaryVisualization_ne _ _ _ (by decide),
    lookupKey_addMaxPrecision_ne _ _ _ (by decide),
    lookupKey_addRefreshInterval_ne _ _ _ (by decide)]
  cases hm : getOkInt d.max_delay with
  | none =>
    simp only [addProgramOptions, hm]
    rw [lookupKey_addColorBy_ne _ _ _ (by decide) (by decide),
      lookupKey_addUnitPre_ne _ _ _ (by decide), lookupKey_insertKV, if_neg (by decide)]
    rfl
  | some val => simp [addProgramOptions, hm, lookupKey_insertKV, insertKV]

theorem lookup_refreshInterval (d : ResourceData) :
    lookupKey "refreshInterval" (chartOptionsInPayload d) =
      Option.map (fun v => JValue.int (v * 1000)) (getOkInt d.refresh_interval) := by
  rw [lookupKey_chartOptionsInPayload_ne _ _ (by decide)]
  unfold getSingleValueChartOptions
  rw [lookupKey_insertKV, if_neg (by decide), lookupKey_insertKV, if_neg (by decide),
    lookupKey_addSecondaryVisualization_ne _ _ _ (by decide),
    lookupKey_addMaxPrecision_ne _ _ _ (by decide)]
  cases hr : getOkInt d.refresh_interval with
  | none =>
    simp only [addRefreshInterval, hr]
    rw [lookupKey_addProgramOptions_ne _ _ _ (by decide),
      lookupKey_addColorBy_ne _ _ _ (by decide) (by decide),
      lookupKey_addUnitPre_ne _ _ _ (by decide), lookupKey_insertKV, if_neg (by decide)]
    rfl
  | some val => simp [addRefreshInterval, hr, lookupKey_insertKV]

theorem lookup_maximumPrecision (d : ResourceData) :
    lookupKey "maximumPrecision" (chartOptionsInPayload d) =
      Option.map JValue.int (getOkInt d.max_precision) := by
  rw [lookupKey_chartOptionsInPayload_ne _ _ (by decide)]
  unfold getSingleValueChartOptions
  rw [lookupKey_insertKV, if_neg (by decide), lookupKey_insertKV, if_neg (by decide),
    lookupKey_addSecondaryVisualization_ne _ _ _ (by decide)]
  cases hp : getOkInt d.max_precision with
  | none =>
    simp only [addMaxPrecision, hp]
    rw [lookupKey_addRefreshInterval_ne _ _ _ (by decide),
      lookupKey_addProgramOptions_ne _ _ _ (by decide),
      lookupKey_addColorBy_ne _ _ _ (by decide) (by decide),
      lookupKey_addUnitPre_ne _ _ _ (by decide), lookupKey_insertKV, if_neg (by decide)]
    rfl
  | some val => simp [addMaxPrecision, hp, lookupKey_insertKV]

theorem getOkString_ne_empty {o : Option String} {s : String} (h : getOkString o = some s) :
    ¬ s = "" := by
  cases o with
  | none => simp [getOkString] at h
  | some t =>
    by_cases ht : t = ""
    · simp [getOkString, ht] at h
    · rw [show getOkString (some t) = if t = "" then none else some t from rfl, if_neg ht] at h
      injection h with h2
      exact h2 ▸ ht

theorem lookup_secondaryVisualization (d : ResourceData) :
    lookupKey "secondaryVisualization" (chartOptionsInPayload d) =
      Option.map JValue.str (getOkString d.secondary_visualization) := by
  rw [lookupKey_chartOptionsInPayload_ne _ _ (by decide)]
  unfold getSingleValueChartOptions
  rw [lookupKey_insertKV, if_neg (by decide), lookupKey_insertKV, if_neg (by decide)]
  cases hs : getOkString d.secondary_visualization with
  | none =>
    simp only [addSecondaryVisualization, hs]
    rw [lookupKey_addMaxPrecision_ne _ _ _ (by decide),
      lookupKey_addRefreshInterval_ne _ _ _ (by decide),
      lookupKey_addProgramOptions_ne _ _ _ (by decide),
      lookupKey_addColorBy_ne _ _ _ (by decide) (by decide),
      lookupKey_addUnitPre_ne _ _ _ (by decide), lookupKey_insertKV, if_neg (by decide)]
    rfl
  | some val =>
    have hv := getOkString_ne_empty hs
    simp [addSecondaryVisualization, hs, hv, lookupKey_insertKV]

theorem lookup_colorBy_colorScale (d : ResourceData) :
    lookupKey "colorBy" (chartOptionsInPayload d) =
      (match getOkString d.color_by with
       | none => none
       | some val =>
         if val = "Scale" then
           (if 0 < (getColorScaleOptions d).length then some (JValue.str "Scale") else none)
         else some (JValue.str val)) ∧
    lookupKey "colorScale2" (chartOptionsInPayload d) =
      (match getOkString d.color_by with
       | none => none
       | some val =>
         if val = "Scale" then
           (if 0 < (getColorScaleOptions d).length then
             some (JValue.arr (getColorScaleOptions d))
            else none)
         else none) := by
  have step1 : lookupKey "colorBy" (chartOptionsInPayload d) =
      lookupKey "colorBy" (addColorBy d
        (addUnitPre d (insertKV "type" (JValue.str "SingleValue") []))) := by
    rw [lookupKey_chartOptionsInPayload_ne _ _ (by decide)]
    unfold getSingleValueChartOptions
    rw [lookupKey_insertKV, if_neg (by decide), lookupKey_insertKV, if_neg (by decide),
      lookupKey_addSecondaryVisualization_ne _ _ _ (by decide),
      lookupKey_addMaxPrecision_ne _ _ _ (by decide),
      lookupKey_addRefreshInterval_ne _ _ _ (by decide),
      lookupKey_addProgramOptions_ne _ _ _ (by decide)]
  have step2 : lookupKey "colorScale2" (chartOptionsInPayload d) =
      lookupKey "colorScale2" (addColorBy d
        (addUnitPre d (insertKV "type" (JValue.str "SingleValue") []))) := by
    rw [lookupKey_chartOptionsInPayload_ne _ _ (by decide)]
    unfold getSingleValueChartOptions
    rw [lookupKey_insertKV, if_neg (by decide), lookupKey_insertKV, if_neg (by decide),
      lookupKey_addSecondaryVisualization_ne _ _ _ (by decide),
      lookupKey_addMaxPrecision_ne _ _ _ (by decide),
      lookupKey_addRefreshInterval_ne _ _ _ (by decide),
      lookupKey_addProgramOptions_ne _ _ _ (by decide)]
  have hb1 : lookupKey "colorBy"
      (addUnitPre d (insertKV "type" (JValue.str "SingleValue") [])) = none := by
    rw [lookupKey_addUnitPre_ne _ _ _ (by decide), lookupKey_insertKV, if_neg (by decide)]
    rfl
  have hb2 : lookupKey "colorScale2"
      (addUnitPre d (insertKV "type" (JValue.str "SingleValue") [])) = none := by
    rw [lookupKey_addUnitPre_ne _ _ _ (by decide), lookupKey_insertKV, if_neg (by decide)]
    rfl
  rw [step1, step2]
  cases hc : getOkString d.color_by with
  | none => simp [addColorBy, hc, hb1, hb2]
  | some val =>
    by_cases hs : val = "Scale"
    · subst hs
      by_cases hl : 0 < (getColorScaleOptions d).length
      · simp +decide [addColorBy, hc, hl, lookupKey_insertKV]
      · simp [addColorBy, hc, hl, hb1, hb2]
    · simp +decide [addColorBy, hc, hs, lookupKey_insertKV, hb1, hb2]

theorem lookup_publishLabelOptions (d : ResourceData) :
    lookupKey "publishLabelOptions" (chartOptionsInPayload d) =
      (if 0 < (getPerSignalVizOptions d).length then
        some (JValue.arr (getPerSignalVizOptions d))
       else none) := by
  have hbase : lookupKey "publishLabelOptions" (getSingleValueChartOptions d) = none := by
    unfold getSingleValueChartOptions
    rw [lookupKey_insertKV, if_neg (by decide), lookupKey_insertKV, if_neg (by decide),
      lookupKey_addSecondaryVisualization_ne _ _ _ (by decide),
      lookupKey_addMaxPrecision_ne _ _ _ (by decide),
      lookupKey_addRefreshInterval_ne _ _ _ (by decide),
      lookupKey_addProgramOptions_ne _ _ _ (by decide),
      lookupKey_addColorBy_ne _ _ _ (by decide) (by decide),
      lookupKey_addUnitPre_ne _ _ _ (by decide), lookupKey_insertKV, if_neg (by decide)]
    rfl
  by_cases hl : 0 < (getPerSignalVizOptions d).length <;>
    simp [chartOptionsInPayload, hl, lookupKey_insertKV, hbase]

theorem chartOptionsInPayload_length_pos (d : ResourceData) :
    0 < (chartOptionsInPayload d).length := by
  by_cases hl : 0 < (getPerSignalVizOptions d).length <;>
    simp [chartOptionsInPayload, hl, getSingleValueChartOptions, insertKV_length_pos]

/-! ### Characterization of the top-level payload keys -/

theorem lookup_options (d : ResourceData) :
    lookupKey "options" (payloadFields d) = some (JValue.obj (chartOptionsInPayload d)) := by
  unfold payloadFields
  rw [if_pos (chartOptionsInPayload_length_pos d)]
  rw [lookupKey_insertKV, if_pos rfl]

theorem lookup_name (d : ResourceData) :
    lookupKey "name" (payloadFields d) = some (JValue.str d.name) := by
  unfold payloadFields
  rw [if_pos (chartOptionsInPayload_length_pos d)]
  rw [lookupKey_insertKV, if_neg (by decide), lookupKey_insertKV, if_pos rfl]

theorem lookup_description (d : ResourceData) :
    lookupKey "description" (payloadFields d) =
      some (JValue.str (Option.getD d.description "")) := by
  unfold payloadFields
  rw [if_pos (chartOptionsInPayload_length_pos d)]
  rw [lookupKey_insertKV, if_neg (by decide), lookupKey_insertKV, if_neg (by decide),
    lookupKey_insertKV, if_pos rfl]

theorem lookup_programText (d : ResourceData) :
    lookupKey "programText" (payloadFields d) = some (JValue.str d.program_text) := by
  unfold payloadFields
  rw [if_pos (chartOptionsInPayload_length_pos d)]
  rw [lookupKey_insertKV, if_neg (by decide), lookupKey_insertKV, if_neg (by decide),
    lookupKey_insertKV, if_neg (by decide), lookupKey_insertKV, if_pos rfl]

theorem lookup_payload_top_ne (k : String) (d : ResourceData)
    (h1 : ¬ k = "options") (h2 : ¬ k = "name") (h3 : ¬ k = "description")
    (h4 : ¬ k = "programText") : lookupKey k (payloadFields d) = none := by
  unfold payloadFields
  rw [if_pos (chartOptionsInPayload_length_pos d)]
  rw [lookupKey_insertKV, if_neg h1, lookupKey_insertKV, if_neg h2,
    lookupKey_insertKV, if_neg h3, lookupKey_insertKV, if_neg h4]
  rfl

/-! ### The Create and Update handlers

`buildURL`, `buildAppURL`, `resourceCreate` and `resourceUpdate` live outside
`src/`; they are abstracted by their outcomes.  Per spec section 6 the create
collaborator is `create(url, authToken, payload) -> (identifier, error)` and
per section 4.3 a successful create assigns the identifier, so
`resourceCreateResult` carries the identifier on success. -/

/-- A resource instance as the orchestrator sees it: the remote identifier
(`none` = Unmanaged) and the computed `url` field. -/
structure InstanceState where
  id : Option String
  url : Option String
deriving Repr, DecidableEq

/-- Outcomes of the collaborators consulted by `singlevaluechartCreate`, in
the order the handler consults them. -/
structure CreateEnv where
  buildURLResult : Except String String
  resourceCreateResult : Except String String
  buildAppURLResult : Except String String

/-- Outcomes of the collaborators consulted by `singlevaluechartUpdate`. -/
structure UpdateEnv where
  buildURLResult : Except String String
  resourceUpdateResult : Except String Unit

/-- What one handler run produced: its error-or-unit result, the instance
state it left behind, and the payload it handed to the transport collaborator
(`none` when the run failed before submitting anything). -/
structure OpResult where
  result : Except String Unit
  state : InstanceState
  submitted : Option String
deriving Repr

/-- Embedding of `singlevaluechartCreate`: build the payload, build the API
URL, submit the create call, and only after a successful create build the app
URL and set the computed `url` field.  The payload-marshalling error branch
of the Go code is unreachable (marshalling these maps cannot fail), so the
first step always succeeds. -/
def singlevaluechartCreate (env : CreateEnv) (d : ResourceData) (st : InstanceState) :
    OpResult :=
  let payload := getPayloadSingleValueChart d
  match env.buildURLResult with
  | Except.error e =>
    ⟨Except.error ("[DEBUG] SignalFx: Error constructing API URL: " ++ e), st, none⟩
  | Except.ok _url =>
    match env.resourceCreateResult with
    | Except.error e => ⟨Except.error e, st, some payload⟩
    | Except.ok newId =>
      match env.buildAppURLResult with
      | Except.error e => ⟨Except.error e, ⟨some newId, st.url⟩, some payload⟩
      | Except.ok appURL => ⟨Except.ok (), ⟨some newId, some appURL⟩, some payload⟩

/-- Embedding of `singlevaluechartUpdate`: rebuild the payload from the
current field values, build the API URL, submit the update call. -/
def singlevaluechartUpdate (env : UpdateEnv) (d : ResourceData) (st : InstanceState) :
    OpResult :=
  let payload := getPayloadSingleValueChart d
  match env.buildURLResult with
  | Except.error e =>
    ⟨Except.error ("[DEBUG] SignalFx: Error constructing API URL: " ++ e), st, none⟩
  | Except.ok _url =>
    match env.resourceUpdateResult with
    | Except.error e => ⟨Except.error e, st, some payload⟩
    | Except.ok _ => ⟨Except.ok (), st, some payload⟩

/-! ### Concrete resource configurations used by the claims -/

/-- The program text of the spec's end-to-end scenario. -/
def progText : String := "data(" ++ sq ++ "cpu" ++ sq ++ ").publish()"

/-- A minimal configuration: both required fields set, everything else unset. -/
def emptyChart : ResourceData :=
  ⟨"x", "p", none, none, none, none, none, none, none, none, none, [], []⟩

/-- The configuration of the spec's end-to-end scenario: `name`,
`program_text`, `max_delay = 5` and `show_spark_line = true` set, every other
field unset. -/
def scenarioChart : ResourceData :=
  { emptyChart with
    program_text := progText
    max_delay := some 5
    show_spark_line := some true }

/-- `emptyChart` with `max_delay` explicitly set to the integer zero value. -/
def delayZeroChart : ResourceData := { emptyChart with max_delay := some 0 }

/-- `emptyChart` with `color_by = "Scale"` but zero `color_scale` entries. -/
def scaleEmptyChart : ResourceData := { emptyChart with color_by := some "Scale" }

/-- `emptyChart` with `color_by = "Scale"` and one `color_scale` entry. -/
def scaleOneChart : ResourceData :=
  { emptyChart with
    color_by := some "Scale"
    color_scale := [⟨"red", some 1, none, none, none⟩] }

/-- The payload the spec's end-to-end scenario claims, serialized with sorted
keys as `json.Marshal` emits objects. -/
def scenarioClaimedJson : String :=
  "\x7b\"name\":\"x\",\"options\":\x7b\"programOptions\":\x7b\"maxDelay\":5000\x7d," ++
  "\"showSparkLine\":true,\"timestampHidden\":false,\"type\":\"SingleValue\"\x7d," ++
  "\"programText\":\"data(" ++ sq ++ "cpu" ++ sq ++ ").publish()\"\x7d"

/-- The payload the code actually produces for the scenario: the claimed
object plus the always-present `"description":""` key. -/
def scenarioActualJson : String :=
  "\x7b\"description\":\"\",\"name\":\"x\",\"options\":\x7b\"programOptions\":" ++
  "\x7b\"maxDelay\":5000\x7d,\"showSparkLine\":true,\"timestampHidden\":false," ++
  "\"type\":\"SingleValue\"\x7d,\"programText\":\"data(" ++ sq ++ "cpu" ++ sq ++
  ").publish()\"\x7d"

/-! ### C1 -/

set_option maxRecDepth 40000 in
/-- C1 (counterexample): on the end-to-end scenario input, the payload built
by `getPayloadSingleValueChart` is not the JSON object the claim states — the
code unconditionally includes `description`, so the payload carries the extra
key `"description":""` (the payload is 180 bytes, the claimed object only
163). -/
theorem C1_counterexample :
    ¬ getPayloadSingleValueChart scenarioChart = scenarioClaimedJson := by
  intro h
  have h2 := congrArg String.length h
  rw [show (getPayloadSingleValueChart scenarioChart).length = 180 from rfl,
    show scenarioClaimedJson.length = 163 from rfl] at h2
  exact absurd h2 (by decide)

set_option maxRecDepth 40000 in
/-- C1 (amended): on the end-to-end scenario input the payload equals the
claimed JSON object extended with the always-present `"description":""` key —
no other key added and none missing. -/
theorem C1_amended_scenario_payload :
    getPayloadSingleValueChart scenarioChart = scenarioActualJson := rfl

/-! ### C2 -/

/-- C2 (counterexample): with every optional field unset, the payload still
carries the optional field `description` — as its type's zero value `""` —
and the payload for `max_delay` explicitly set to `0` is byte-for-byte the
payload for `max_delay` unset, so unset is not distinguishable from
explicitly-zero. -/
theorem C2_counterexample :
    lookupKey "description" (payloadFields emptyChart) = some (JValue.str "") ∧
    getPayloadSingleValueChart delayZeroChart = getPayloadSingleValueChart emptyChart :=
  ⟨rfl, rfl⟩

/-- C2 (amended): the payload always includes the required fields `name` and
`programText`; the optional `description` is always included, carrying `""`
when unset, and `timestampHidden` / `showSparkLine` are always included with
default `false`; every other optional scalar field of the options map is
omitted when unset — and likewise when explicitly set to its type's zero
value, which the code's `GetOk` fetch treats as unset. -/
theorem C2_amended_field_presence (d : ResourceData) :
    lookupKey "name" (payloadFields d) = some (JValue.str d.name) ∧
    lookupKey "programText" (payloadFields d) = some (JValue.str d.program_text) ∧
    lookupKey "description" (payloadFields d) =
      some (JValue.str (Option.getD d.description "")) ∧
    lookupKey "unitPrefix" (chartOptionsInPayload d) =
      Option.map JValue.str (getOkString d.unit_pre) ∧
    lookupKey "refreshInterval" (chartOptionsInPayload d) =
      Option.map (fun v => JValue.int (v * 1000)) (getOkInt d.refresh_interval) ∧
    lookupKey "maximumPrecision" (chartOptionsInPayload d) =
      Option.map JValue.int (getOkInt d.max_precision) ∧
    lookupKey "secondaryVisualization" (chartOptionsInPayload d) =
      Option.map JValue.str (getOkString d.secondary_visualization) ∧
    lookupKey "programOptions" (chartOptionsInPayload d) =
      Option.map (fun v => JValue.obj [("maxDelay", JValue.int (v * 1000))])
        (getOkInt d.max_delay) ∧
    lookupKey "timestampHidden" (chartOptionsInPayload d) =
      some (JValue.bool (Option.getD d.is_timestamp_hidden false)) ∧
    lookupKey "showSparkLine" (chartOptionsInPayload d) =
      some (JValue.bool (Option.getD d.show_spark_line false)) :=
  ⟨lookup_name d, lookup_programText d, lookup_description d, lookup_unitPre d,
    lookup_refreshInterval d, lookup_maximumPrecision d, lookup_secondaryVisualization d,
    lookup_programOptions d, lookup_timestampHidden d, lookup_showSparkLine d⟩

/-! ### C3 -/

/-- C3 (counterexample): with `color_by` set to `"Scale"` but zero
`color_scale` entries, the payload attaches neither the nested color-scale
structure nor the flat `colorBy` field — contradicting the claim that setting
`color_by = "Scale"` always attaches `colorBy = "Scale"` with the nested
scale entries. -/
theorem C3_counterexample :
    lookupKey "colorBy" (chartOptionsInPayload scaleEmptyChart) = none ∧
    lookupKey "colorScale2" (chartOptionsInPayload scaleEmptyChart) = none := ⟨rfl, rfl⟩

/-- C3 (amended): when `color_by` is fetched as `"Scale"` and at least one
color-scale entry exists, the payload attaches `colorBy = "Scale"` together
with the nested `colorScale2` entries and no flat-only form; when it is
fetched as `"Scale"` with zero entries, neither is attached; when it is
fetched as any other value, the payload attaches `colorBy` as a flat field
only and no nested color-scale structure. -/
theorem C3_amended_colorBy_modes (d : ResourceData) (val : String)
    (h : getOkString d.color_by = some val) :
    (val = "Scale" → 0 < (getColorScaleOptions d).length →
      lookupKey "colorBy" (chartOptionsInPayload d) = some (JValue.str "Scale") ∧
      lookupKey "colorScale2" (chartOptionsInPayload d) =
        some (JValue.arr (getColorScaleOptions d))) ∧
    (val = "Scale" → (getColorScaleOptions d).length = 0 →
      lookupKey "colorBy" (chartOptionsInPayload d) = none ∧
      lookupKey "colorScale2" (chartOptionsInPayload d) = none) ∧
    (¬ val = "Scale" →
      lookupKey "colorBy" (chartOptionsInPayload d) = some (JValue.str val) ∧
      lookupKey "colorScale2" (chartOptionsInPayload d) = none) := by
  obtain ⟨h1, h2⟩ := lookup_colorBy_colorScale d
  refine ⟨?_, ?_, ?_⟩
  · intro hs hl
    subst hs
    constructor
    · rw [h1]; simp [h, hl]
    · rw [h2]; simp [h, hl]
  · intro hs hl
    subst hs
    constructor
    · rw [h1]; simp [h, hl]
    · rw [h2]; simp [h, hl]
  · intro hs
    constructor
    · rw [h1]; simp [h, hs]
    · rw [h2]; simp [h, hs]

/-- C3 (witness): the amended claim at a configuration with
`color_by = "Scale"` and one color-scale entry. -/
theorem C3_witness :
    lookupKey "colorBy" (chartOptionsInPayload scaleOneChart) = some (JValue.str "Scale") ∧
    lookupKey "colorScale2" (chartOptionsInPayload scaleOneChart) =
      some (JValue.arr (getColorScaleOptions scaleOneChart)) := by
  have h := C3_amended_colorBy_modes scaleOneChart "Scale" rfl
  refine h.1 rfl ?_
  rw [show (getColorScaleOptions scaleOneChart).length = 1 from rfl]
  exact Nat.zero_lt_one

/-! ### C4 -/

/-- C4 (counterexample): `max_delay` explicitly set to `0` is a
configuration in which the claim requires
`options.programOptions.maxDelay = 0 * 1000`, but the code's `GetOk` fetch
treats the zero value as unset and omits `programOptions` entirely. -/
theorem C4_counterexample :
    delayZeroChart.max_delay = some 0 ∧
    lookupKey "programOptions" (chartOptionsInPayload delayZeroChart) = none := ⟨rfl, rfl⟩

/-- C4 (amended): for every configuration in which `max_delay` (respectively
`refresh_interval`) is explicitly set to a non-zero value `s`, the payload
carries `options.programOptions.maxDelay = s * 1000` (respectively
`options.refreshInterval = s * 1000`); a field set to `0` is treated as
unset and omitted; the only other numeric field, `max_precision`, is carried
unconverted. -/
theorem C4_amended_unit_conversion (d : ResourceData) :
    (∀ s : Int, d.max_delay = some s → ¬ s = 0 →
      lookupKey "programOptions" (chartOptionsInPayload d) =
        some (JValue.obj [("maxDelay", JValue.int (s * 1000))])) ∧
    (∀ r : Int, d.refresh_interval = some r → ¬ r = 0 →
      lookupKey "refreshInterval" (chartOptionsInPayload d) =
        some (JValue.int (r * 1000))) ∧
    (∀ p : Int, d.max_precision = some p → ¬ p = 0 →
      lookupKey "maximumPrecision" (chartOptionsInPayload d) = some (JValue.int p)) := by
  refine ⟨?_, ?_, ?_⟩
  · intro s hs hz
    rw [lookup_programOptions d]
    simp [getOkInt, hs, hz]
  · intro r hr hz
    rw [lookup_refreshInterval d]
    simp [getOkInt, hr, hz]
  · intro p hp hz
    rw [lookup_maximumPrecision d]
    simp [getOkInt, hp, hz]

/-- A configuration with all three numeric fields set to non-zero values. -/
def conversionChart : ResourceData :=
  { emptyChart with
    max_delay := some 5
    refresh_interval := some 2
    max_precision := some 3 }

/-- C4 (witness): the amended claim at `max_delay = 5`,
`refresh_interval = 2`, `max_precision = 3`. -/
theorem C4_witness :
    lookupKey "programOptions" (chartOptionsInPayload conversionChart) =
      some (JValue.obj [("maxDelay", JValue.int 5000)]) ∧
    lookupKey "refreshInterval" (chartOptionsInPayload conversionChart) =
      some (JValue.int 2000) ∧
    lookupKey "maximumPrecision" (chartOptionsInPayload conversionChart) =
      some (JValue.int 3) := by
  have h := C4_amended_unit_conversion conversionChart
  exact ⟨h.1 5 rfl (by decide), h.2.1 2 rfl (by decide), h.2.2 3 rfl (by decide)⟩

/-! ### C5 -/

/-- C5: when a nested-block field has zero entries, its parent key —
`publishLabelOptions` for `viz_options`, `colorScale2` for `color_scale` —
is entirely absent from the options map and from the top level of the
payload; it is never present as an empty list. -/
theorem C5_empty_blocks_omitted (d : ResourceData) :
    (d.viz_options = [] →
      lookupKey "publishLabelOptions" (chartOptionsInPayload d) = none ∧
      lookupKey "publishLabelOptions" (payloadFields d) = none) ∧
    (d.color_scale = [] →
      lookupKey "colorScale2" (chartOptionsInPayload d) = none ∧
      lookupKey "colorScale2" (payloadFields d) = none) := by
  constructor
  · intro h
    have hv : getPerSignalVizOptions d = [] := by simp [getPerSignalVizOptions, h]
    constructor
    · rw [lookup_publishLabelOptions d]
      simp [hv]
    · exact lookup_payload_top_ne _ d (by decide) (by decide) (by decide) (by decide)
  · intro h
    have hcs : getColorScaleOptions d = [] := by simp [getColorScaleOptions, h]
    constructor
    · rw [(lookup_colorBy_colorScale d).2]
      rcases hgo : getOkString d.color_by with _ | val
      · rfl
      · by_cases hs : val = "Scale" <;> simp [hs, hcs]
    · exact lookup_payload_top_ne _ d (by decide) (by decide) (by decide) (by decide)

/-- C5 (witness): the claim at a configuration with zero `viz_options` and
zero `color_scale` entries (and `color_by = "Scale"`, so the color-scale
branch is exercised). -/
theorem C5_witness :
    (lookupKey "publishLabelOptions" (chartOptionsInPayload scaleEmptyChart) = none ∧
     lookupKey "publishLabelOptions" (payloadFields scaleEmptyChart) = none) ∧
    (lookupKey "colorScale2" (chartOptionsInPayload scaleEmptyChart) = none ∧
     lookupKey "colorScale2" (payloadFields scaleEmptyChart) = none) := by
  have h := C5_empty_blocks_omitted scaleEmptyChart
  exact ⟨h.1 rfl, h.2 rfl⟩

/-! ### C6 -/

/-- Collaborator outcomes where the remote create succeeds but the app-URL
construction afterwards fails. -/
def failingAppURLEnv : CreateEnv :=
  ⟨Except.ok "https://api.signalfx.com/v2/chart", Except.ok "chart123", Except.error "boom"⟩

/-- Collaborator outcomes where the remote create call itself fails. -/
def failingCreateEnv : CreateEnv :=
  ⟨Except.ok "https://api.signalfx.com/v2/chart", Except.error "api down", Except.ok "app"⟩

/-- C6 (counterexample): when the remote create succeeds and the subsequent
app-URL construction fails, `Create` returns an error yet the identifier has
already been assigned — the instance does not remain Unmanaged. -/
theorem C6_counterexample :
    (singlevaluechartCreate failingAppURLEnv emptyChart ⟨none, none⟩).result =
      Except.error "boom" ∧
    (singlevaluechartCreate failingAppURLEnv emptyChart ⟨none, none⟩).state.id =
      some "chart123" := ⟨rfl, rfl⟩

/-- C6 (amended): if `Create` fails at payload construction (unreachable),
API-URL construction, or the remote create call, the resource instance is
left exactly as it was — in particular an Unmanaged instance remains
Unmanaged; only a failure after a successful remote create (app-URL
construction) leaves an assigned identifier behind. -/
theorem C6_amended_early_failure (env : CreateEnv) (d : ResourceData) (st : InstanceState)
    (h : (∃ e, env.buildURLResult = Except.error e) ∨
      (∃ e, env.resourceCreateResult = Except.error e)) :
    (singlevaluechartCreate env d st).state = st ∧
    ∀ u, ¬ (singlevaluechartCreate env d st).result = Except.ok u := by
  obtain ⟨bu, rc, ba⟩ := env
  rcases h with ⟨e, he⟩ | ⟨e, he⟩
  · subst he
    simp [singlevaluechartCreate]
  · cases bu with
    | error e2 => simp [singlevaluechartCreate]
    | ok u =>
      subst he
      simp [singlevaluechartCreate]

/-- C6 (witness): the amended claim at a failing remote create call, starting
from an Unmanaged instance. -/
theorem C6_witness :
    (singlevaluechartCreate failingCreateEnv emptyChart ⟨none, none⟩).state =
      ⟨none, none⟩ ∧
    ∀ u, ¬ (singlevaluechartCreate failingCreateEnv emptyChart ⟨none, none⟩).result =
      Except.ok u :=
  C6_amended_early_failure failingCreateEnv emptyChart ⟨none, none⟩
    (Or.inr ⟨"api down", rfl⟩)

/-! ### C7 -/

/-- C7: whenever `Create` and `Update` both reach their submission step for
the same local field values, they submit byte-for-byte the same payload, and
it is the full payload `getPayloadSingleValueChart` rebuilds from the current
field values — not a diff or patch. -/
theorem C7_update_submits_create_payload (d : ResourceData) (envC : CreateEnv)
    (envU : UpdateEnv) (stC stU : InstanceState) (p q : String)
    (hc : (singlevaluechartCreate envC d stC).submitted = some p)
    (hu : (singlevaluechartUpdate envU d stU).submitted = some q) :
    q = p ∧ q = getPayloadSingleValueChart d := by
  obtain ⟨bu, rc, ba⟩ := envC
  obtain ⟨bu2, ru⟩ := envU
  have hp : p = getPayloadSingleValueChart d := by
    cases bu with
    | error e => simp [singlevaluechartCreate] at hc
    | ok u =>
      cases rc with
      | error e =>
        simp [singlevaluechartCreate] at hc
        exact hc.symm
      | ok i =>
        cases ba with
        | error e =>
          simp [singlevaluechartCreate] at hc
          exact hc.symm
        | ok a =>
          simp [singlevaluechartCreate] at hc
          exact hc.symm
  have hq : q = getPayloadSingleValueChart d := by
    cases bu2 with
    | error e => simp [singlevaluechartUpdate] at hu
    | ok u =>
      cases ru with
      | error e =>
        simp [singlevaluechartUpdate] at hu
        exact hu.symm
      | ok u2 =>
        simp [singlevaluechartUpdate] at hu
        exact hu.symm
  exact ⟨hq.trans hp.symm, hq⟩

/-- Collaborator outcomes where every step of `Create` succeeds. -/
def okCreateEnv : CreateEnv :=
  ⟨Except.ok "https://api.signalfx.com/v2/chart", Except.ok "id1", Except.ok "app"⟩

/-- Collaborator outcomes where every step of `Update` succeeds. -/
def okUpdateEnv : UpdateEnv :=
  ⟨Except.ok "https://api.signalfx.com/v2/chart/id1", Except.ok ()⟩

/-- C7 (witness): the theorem applied to a concrete successful create and
update of the same configuration. -/
theorem C7_witness :
    getPayloadSingleValueChart emptyChart = getPayloadSingleValueChart emptyChart ∧
    getPayloadSingleValueChart emptyChart = getPayloadSingleValueChart emptyChart :=
  C7_update_submits_create_payload emptyChart okCreateEnv okUpdateEnv ⟨none, none⟩
    ⟨some "id1", none⟩ (getPayloadSingleValueChart emptyChart)
    (getPayloadSingleValueChart emptyChart) rfl rfl

/-! ### C8 -/

/-- C8: payload construction is a pure deterministic function of the field
values — the embedding is a function, so equal field values give identical
payload bytes; the Go original only reads `d` (via `Get`/`GetOk`) and
performs no network access, which the embedding reflects by taking
`ResourceData` as its only input and returning only the bytes. -/
theorem C8_payload_deterministic (d1 d2 : ResourceData) (h : d1 = d2) :
    getPayloadSingleValueChart d1 = getPayloadSingleValueChart d2 :=
  congrArg getPayloadSingleValueChart h

/-- C8 (witness): determinism at a concrete configuration. -/
theorem C8_witness :
    getPayloadSingleValueChart emptyChart = getPayloadSingleValueChart emptyChart :=
  C8_payload_deterministic emptyChart emptyChart rfl

/-! ### C9 -/

/-- C9: every payload contains the key `options`; the options map always
contains `type = "SingleValue"`, `timestampHidden` and `showSparkLine` — the
two booleans carrying their schema default `false` when the fields were
never set — while every other optional options field is absent when its
field is unset. -/
theorem C9_options_always_present (d : ResourceData) :
    lookupKey "options" (payloadFields d) = some (JValue.obj (chartOptionsInPayload d)) ∧
    lookupKey "type" (chartOptionsInPayload d) = some (JValue.str "SingleValue") ∧
    lookupKey "timestampHidden" (chartOptionsInPayload d) =
      some (JValue.bool (Option.getD d.is_timestamp_hidden false)) ∧
    lookupKey "showSparkLine" (chartOptionsInPayload d) =
      some (JValue.bool (Option.getD d.show_spark_line false)) ∧
    (d.is_timestamp_hidden = none →
      lookupKey "timestampHidden" (chartOptionsInPayload d) = some (JValue.bool false)) ∧
    (d.show_spark_line = none →
      lookupKey "showSparkLine" (chartOptionsInPayload d) = some (JValue.bool false)) ∧
    (d.unit_pre = none → lookupKey "unitPrefix" (chartOptionsInPayload d) = none) ∧
    (d.color_by = none → lookupKey "colorBy" (chartOptionsInPayload d) = none) ∧
    (d.max_delay = none → lookupKey "programOptions" (chartOptionsInPayload d) = none) ∧
    (d.refresh_interval = none →
      lookupKey "refreshInterval" (chartOptionsInPayload d) = none) ∧
    (d.max_precision = none →
      lookupKey "maximumPrecision" (chartOptionsInPayload d) = none) ∧
    (d.secondary_visualization = none →
      lookupKey "secondaryVisualization" (chartOptionsInPayload d) = none) := by
  refine ⟨lookup_options d, lookup_type d, lookup_timestampHidden d, lookup_showSparkLine d,
    ?_, ?_, ?_, ?_, ?_, ?_, ?_, ?_⟩
  · intro h
    rw [lookup_timestampHidden d, h]
    rfl
  · intro h
    rw [lookup_showSparkLine d, h]
    rfl
  · intro h
    rw [lookup_unitPre d, h]
    rfl
  · intro h
    rw [(lookup_colorBy_colorScale d).1, h]
    rfl
  · intro h
    rw [lookup_programOptions d, h]
    rfl
  · intro h
    rw [lookup_refreshInterval d, h]
    rfl
  · intro h
    rw [lookup_maximumPrecision d, h]
    rfl
  · intro h
    rw [lookup_secondaryVisualization d, h]
    rfl

/-- C9 (witness): the invariants at the all-unset configuration: `options`
is present and the two booleans are present carrying `false`. -/
theorem C9_witness :
    lookupKey "options" (payloadFields emptyChart) =
      some (JValue.obj (chartOptionsInPayload emptyChart)) ∧
    lookupKey "timestampHidden" (chartOptionsInPayload emptyChart) =
      some (JValue.bool false) ∧
    lookupKey "showSparkLine" (chartOptionsInPayload emptyChart) =
      some (JValue.bool false) := by
  have h := C9_options_always_present emptyChart
  exact ⟨h.1, h.2.2.2.2.1 rfl, h.2.2.2.2.2.1 rfl⟩

/-! ### C10 -/

/-- C10: the options map contains `colorScale2` exactly when it contains
`colorBy` with value `"Scale"`; and when `color_by` is set to `"Scale"` with
an empty `color_scale` set, neither key appears. -/
theorem C10_colorScale_iff (d : ResourceData) :
    ((lookupKey "colorScale2" (chartOptionsInPayload d)).isSome = true ↔
      lookupKey "colorBy" (chartOptionsInPayload d) = some (JValue.str "Scale")) ∧
    (d.color_by = some "Scale" → d.color_scale = [] →
      lookupKey "colorBy" (chartOptionsInPayload d) = none ∧
      lookupKey "colorScale2" (chartOptionsInPayload d) = none) := by
  obtain ⟨h1, h2⟩ := lookup_colorBy_colorScale d
  constructor
  · rw [h1, h2]
    rcases hgo : getOkString d.color_by with _ | val
    · simp
    · by_cases hs : val = "Scale"
      · subst hs
        by_cases hl : 0 < (getColorScaleOptions d).length <;> simp [hl]
      · simp [hs]
  · intro hc he
    have hcs : getColorScaleOptions d = [] := by simp [getColorScaleOptions, he]
    have hgo : getOkString d.color_by = some "Scale" := by
      rw [hc]
      rfl
    constructor
    · rw [h1]
      simp [hgo, hcs]
    · rw [h2]
      simp [hgo, hcs]

/-- C10 (witness): the claim at `color_by = "Scale"` with an empty
`color_scale` set. -/
theorem C10_witness :
    ((lookupKey "colorScale2" (chartOptionsInPayload scaleEmptyChart)).isSome = true ↔
      lookupKey "colorBy" (chartOptionsInPayload scaleEmptyChart) =
        some (JValue.str "Scale")) ∧
    (lookupKey "colorBy" (chartOptionsInPayload scaleEmptyChart) = none ∧
     lookupKey "colorScale2" (chartOptionsInPayload scaleEmptyChart) = none) := by
  have h := C10_colorScale_iff scaleEmptyChart
  exact ⟨h.1, h.2 rfl rfl⟩

end SignalFx
